import Mathlib

/-!
Verification of the slot-filling dialogue engine of the Travel Voice
Assistant (files `voice.py`, `voice2.py`, `voice3.py`; the engine shared by
`voice2.py` and `voice3.py` is the core this development embeds).

The embedding is shallow: the mutable `st.session_state.user_data`
dictionary becomes the `UserData` record threaded through pure functions,
the substring test of the Python `in` operator becomes `strIn`, the `re.findall` calls of the
traveler-count step become an explicit left-to-right scanner over the
character list, and `random.choice(pool)` is modelled by returning the
whole pool (the chosen utterance is some member of it; the choice is
stateless).  Fields follow Python truthiness: a field counts as unset when
it is `None` or the empty string (`strFalsy`).
-/

/-- Characters of a string, lowercased (model of Python `str.lower()` for
the ASCII texts the program handles). -/
def lowerS (s : String) : String := String.mk (s.data.map Char.toLower)

/-- Helper for `titleS`: the flag says whether the previous character was
alphabetic (cased). -/
def titleAux : Bool → List Char → List Char
  | _, [] => []
  | prevCased, c :: cs =>
    (if c.isAlpha then (if prevCased then c.toLower else c.toUpper) else c) :: titleAux c.isAlpha cs

/-- Model of Python `str.title()`: uppercase each letter that follows a
non-letter, lowercase the rest (used on canonical destination names). -/
def titleS (s : String) : String := String.mk (titleAux false s.data)

/-- Test `isPrefixL p s`: `p` is a prefix of `s`. -/
def isPrefixL : List Char → List Char → Bool
  | [], _ => true
  | _ :: _, [] => false
  | a :: as, b :: bs => a == b && isPrefixL as bs

/-- Test `isSubL p s`: `p` occurs as a contiguous substring of `s`. -/
def isSubL (p : List Char) : List Char → Bool
  | [] => isPrefixL p []
  | c :: cs => isPrefixL p (c :: cs) || isSubL p cs

/-- Model of Python `pat in s` on strings: raw substring containment. -/
def strIn (pat s : String) : Bool := isSubL pat.data s.data

/-- Model of `any(word in low for word in kws)`. -/
def anyKw (kws : List String) (low : String) : Bool := kws.any (fun w => strIn w low)

/-- Python truthiness of an optional string: falsy iff `None` or `""`. -/
def strFalsy : Option String → Bool
  | none => true
  | some s => s.data.isEmpty

/-- Python truthiness of the `user_input` argument (`if not user_input`). -/
def inputFalsy : Option String → Bool
  | none => true
  | some s => s.data.isEmpty

/-- Regex `\w`: ASCII letters, digits and underscore. -/
def isWordChar (c : Char) : Bool := c.isAlphanum || c == '_'

/-- Regex `\s`: ASCII whitespace. -/
def isSpaceChar (c : Char) : Bool :=
  c == ' ' || c == '\t' || c == '\n' || c == '\r' || c == Char.ofNat 11 || c == Char.ofNat 12

/-- A word boundary holds before a word character when the previous
character is absent or not a word character. -/
def prevNonWord : Option Char → Bool
  | none => true
  | some c => !(isWordChar c)

/-- A word boundary holds after a word character when the next character is
absent or not a word character. -/
def headNonWord : List Char → Bool
  | [] => true
  | c :: _ => !(isWordChar c)

/-- Numeric value of a list of ASCII digits (model of `int(...)` on the
captured group). -/
def digitsVal (ds : List Char) : Nat := ds.foldl (fun a c => a * 10 + (c.toNat - 48)) 0

/-- Test `litWithBoundary w s`: the literal `w` is a prefix of `s` and a word
boundary follows it (regex `w\b` anchored at the start of `s`). -/
def litWithBoundary : List Char → List Char → Bool
  | [], [] => true
  | [], c :: _ => !(isWordChar c)
  | _ :: _, [] => false
  | a :: as, b :: bs => a == b && litWithBoundary as bs

/-- Strip the literal `p` from the front of `s`, or fail. -/
def stripPrefixL : List Char → List Char → Option (List Char)
  | [], s => some s
  | _ :: _, [] => none
  | a :: as, b :: bs => if a == b then stripPrefixL as bs else none

/-- Try regex `\b(\d+)\s*(?:w1|w2|...)\b` anchored at the current position
(`prev` is the character before the position).  Returns the captured
number.  The alternation never begins with a digit or a space, so the
greedy `\d+` and `\s*` are deterministic. -/
def numThenWord (words : List (List Char)) (prev : Option Char) (s : List Char) : Option Nat :=
  if prevNonWord prev then
    let ds := s.takeWhile Char.isDigit
    if ds.isEmpty then none
    else
      let rest := (s.drop ds.length).dropWhile isSpaceChar
      if words.any (fun w => litWithBoundary w rest) then some (digitsVal ds) else none
  else none

/-- Try regex `\b(?:p1|p2|...)\s*(\d+)\b` anchored at the current position.
Returns the captured number. -/
def phraseThenNum (phrases : List (List Char)) (prev : Option Char) (s : List Char) :
    Option Nat :=
  if prevNonWord prev then
    phrases.findSome? (fun p =>
      match stripPrefixL p s with
      | none => none
      | some rest =>
        let rest2 := rest.dropWhile isSpaceChar
        let ds := rest2.takeWhile Char.isDigit
        if ds.isEmpty then none
        else if headNonWord (rest2.drop ds.length) then some (digitsVal ds) else none)
  else none

/-- Left-to-right scan of `re.findall`: the first position where the
pattern matches yields the first capture. -/
def scanFor (f : Option Char → List Char → Option Nat) : Option Char → List Char → Option Nat
  | prev, [] => f prev []
  | prev, c :: cs =>
    match f prev (c :: cs) with
    | some n => some n
    | none => scanFor f (some c) cs

/-- Word alternatives of the first traveler pattern of `voice2.py`
(`\b(\d+)\s*(?:people|person|...)\b`). -/
def travelerWords1 : List String :=
  ["people", "person", "persons", "travelers", "travellers", "pax", "passenger", "passengers"]

/-- Phrase alternatives of the second traveler pattern
(`\b(?:party of|group of|team of)\s*(\d+)\b`). -/
def travelerPhrases2 : List String := ["party of", "group of", "team of"]

/-- Word alternatives of the third traveler pattern
(`\b(\d+)\s*(?:adults?|kids?|children|members)\b`); the optional `s?` is
expanded into both alternatives. -/
def travelerWords3 : List String := ["adults", "adult", "kids", "kid", "children", "members"]

/-- Phrase alternatives of the fourth traveler pattern
(`\b(?:we are|there are|will be)\s*(\d+)\b`). -/
def travelerPhrases4 : List String := ["we are", "there are", "will be"]

/-- The four traveler-count regexes, tried in the listed order; the first
pattern that matches anywhere wins (the `for pattern in patterns` loop with
`break` in `extract_info`). -/
def findTravelerCount (low : List Char) : Option Nat :=
  match scanFor (numThenWord (travelerWords1.map String.data)) none low with
  | some n => some n
  | none =>
    match scanFor (phraseThenNum (travelerPhrases2.map String.data)) none low with
    | some n => some n
    | none =>
      match scanFor (numThenWord (travelerWords3.map String.data)) none low with
      | some n => some n
      | none => scanFor (phraseThenNum (travelerPhrases4.map String.data)) none low

/-- Rendering of the captured traveler count: the count, then `person` when it
is exactly one and `people` otherwise (the f-string of the numeric step). -/
def renderCount (n : Nat) : String :=
  toString n ++ " " ++ (if n == 1 then "person" else "people")

/-- The destination table of `voice2.py` / `voice3.py`: canonical name and
its lexical variants, in source (insertion) order. -/
def destinations : List (String × List String) :=
  [("paris", ["paris", "france", "eiffel", "french capital", "city of lights"]),
   ("london", ["london", "uk", "england", "britain", "big ben", "british"]),
   ("tokyo", ["tokyo", "japan", "japanese capital"]),
   ("new york", ["new york", "nyc", "manhattan", "ny city"]),
   ("dubai", ["dubai", "uae", "emirates", "burj"]),
   ("bali", ["bali", "indonesia", "balinese"]),
   ("maldives", ["maldives", "maldive", "male"]),
   ("switzerland", ["switzerland", "swiss", "zurich", "geneva"]),
   ("italy", ["italy", "italian", "rome", "venice", "florence", "milan"]),
   ("spain", ["spain", "spanish", "madrid", "barcelona"]),
   ("greece", ["greece", "greek", "athens", "santorini", "mykonos"]),
   ("thailand", ["thailand", "bangkok", "phuket", "thai"]),
   ("singapore", ["singapore", "singapura"]),
   ("australia", ["australia", "sydney", "melbourne", "aussie"]),
   ("india", ["india", "goa", "kerala", "rajasthan", "delhi", "mumbai", "jaipur"]),
   ("mexico", ["mexico", "cancun", "mexican"]),
   ("canada", ["canada", "toronto", "vancouver", "canadian"]),
   ("iceland", ["iceland", "reykjavik", "icelandic"]),
   ("norway", ["norway", "oslo", "norwegian"]),
   ("hawaii", ["hawaii", "honolulu", "maui", "hawaiian"]),
   ("turkey", ["turkey", "istanbul", "turkish"]),
   ("egypt", ["egypt", "cairo", "pyramids", "egyptian"]),
   ("vietnam", ["vietnam", "hanoi", "vietnamese"]),
   ("peru", ["peru", "machu picchu", "peruvian"]),
   ("portugal", ["portugal", "lisbon", "portuguese"]),
   ("amsterdam", ["amsterdam", "netherlands", "dutch"]),
   ("brazil", ["brazil", "rio", "brazilian"]),
   ("austria", ["austria", "vienna", "austrian"]),
   ("germany", ["germany", "berlin", "munich", "german"]),
   ("croatia", ["croatia", "dubrovnik", "croatian"])]

/-- Solo keywords of the categorical traveler fallback. -/
def soloWords : List String :=
  ["solo", "alone", "myself", "just me", "by myself", "single", "only me", "one person"]

/-- Couple keywords of the categorical traveler fallback. -/
def coupleWords : List String :=
  ["couple", "two of us", "my partner", "wife", "husband", "girlfriend",
   "boyfriend", "spouse", "fiance", "with my", "me and my"]

/-- Family keywords of the categorical traveler fallback. -/
def familyWords : List String := ["family", "kids", "children", "son", "daughter", "parents"]

/-- Friends-group keywords of the categorical traveler fallback. -/
def friendsWords : List String := ["friends", "buddies", "group", "gang", "crew"]

/-- Luxury budget keywords. -/
def luxuryWords : List String :=
  ["luxury", "premium", "high-end", "lavish", "expensive", "best",
   "five star", "5 star", "upscale", "deluxe", "first class", "splurge"]

/-- Moderate budget keywords. -/
def moderateWords : List String :=
  ["moderate", "reasonable", "average", "standard", "mid-range",
   "medium", "comfortable", "decent", "middle", "normal"]

/-- Budget-friendly keywords. -/
def budgetWords : List String :=
  ["budget", "cheap", "affordable", "economical", "low cost",
   "inexpensive", "frugal", "backpacker", "save money", "tight budget"]

/-- The `user_data` dictionary held in `st.session_state`. -/
structure UserData where
  destination : Option String
  travelers : Option String
  budget : Option String
  interests : List String
  confirmed : Option Bool
deriving Repr, DecidableEq

/-- The initial `user_data` value. -/
def emptyUserData : UserData := ⟨none, none, none, [], none⟩

/-- The destination the destination step would store: first table entry
with any variant contained in the lowered input, title-cased. -/
def destMatch (low : String) : Option String :=
  (destinations.find? (fun p => anyKw p.2 low)).map (fun p => titleS p.1)

/-- The traveler descriptor the numeric step would store. -/
def travNumMatch (low : String) : Option String :=
  (findTravelerCount low.data).map renderCount

/-- The traveler descriptor the categorical fallback would store
(solo, then couple, then family, then friends). -/
def travCatMatch (low : String) : Option String :=
  if anyKw soloWords low then some "1 person (Solo)"
  else if anyKw coupleWords low then some "2 people (Couple)"
  else if anyKw familyWords low then some "Family group"
  else if anyKw friendsWords low then some "Friends group"
  else none

/-- The budget value the budget step would store (luxury, then moderate,
then budget-friendly). -/
def budgetMatch (low : String) : Option String :=
  if anyKw luxuryWords low then some "Luxury"
  else if anyKw moderateWords low then some "Moderate"
  else if anyKw budgetWords low then some "Budget-friendly"
  else none

/-- Destination step of `extract_info`: fill `destination` if unset. -/
def destStage (low : String) (d : UserData) : UserData :=
  if strFalsy d.destination then
    match destMatch low with
    | some v => { d with destination := some v }
    | none => d
  else d

/-- Numeric traveler step of `extract_info`: fill `travelers` if unset. -/
def travNumStage (low : String) (d : UserData) : UserData :=
  if strFalsy d.travelers then
    match travNumMatch low with
    | some v => { d with travelers := some v }
    | none => d
  else d

/-- Categorical traveler step of `extract_info`: fill `travelers` if still
unset after the numeric step. -/
def travCatStage (low : String) (d : UserData) : UserData :=
  if strFalsy d.travelers then
    match travCatMatch low with
    | some v => { d with travelers := some v }
    | none => d
  else d

/-- Budget step of `extract_info`: fill `budget` if unset. -/
def budgetStage (low : String) (d : UserData) : UserData :=
  if strFalsy d.budget then
    match budgetMatch low with
    | some v => { d with budget := some v }
    | none => d
  else d

/-- Function `extract_info(user_input)` of `voice2.py` / `voice3.py` as a pure
function of the input and the current `user_data`.  A falsy input returns
at once; otherwise the four steps run in source order on the lowered
input. -/
def extract_info (user_input : Option String) (d : UserData) : UserData :=
  if inputFalsy user_input then d
  else
    let low := lowerS (user_input.getD "")
    budgetStage low (travCatStage low (travNumStage low (destStage low d)))

/-- Affirmative confirmation keywords (`confirm_yes` in `get_response`). -/
def confirm_yes : List String :=
  ["yes", "yeah", "yep", "sure", "definitely", "absolutely", "of course",
   "sounds good", "perfect", "great", "let\x27s do it", "interested",
   "proceed", "book", "okay", "ok", "sounds great", "let\x27s go",
   "i\x27m in", "count me in", "sign me up", "go ahead", "affirmative"]

/-- Negative confirmation keywords (`confirm_no` in `get_response`). -/
def confirm_no : List String :=
  ["no", "nah", "nope", "not interested", "maybe later", "not sure",
   "let me think", "not now", "cancel", "not really", "i\x27ll pass",
   "not yet", "hold on", "negative"]

/-- Acceptance closing pool, interpolating the destination. -/
def yesEndings (dest : String) : List String :=
  ["Amazing! I\x27m so excited for your " ++ dest ++ " adventure! One of our travel experts will call you within 24 hours with a personalized package. Get ready for an unforgettable trip!",
   "Fantastic! Your " ++ dest ++ " journey is going to be incredible! Expect a call from our specialist tomorrow with exclusive deals and insider tips. Thank you for choosing us!",
   "Wonderful! I can\x27t wait for you to experience " ++ dest ++ "! Our team will reach out within a day with your custom itinerary. Safe travels ahead!"]

/-- Decline closing pool. -/
def noEndings : List String :=
  ["No problem at all! Take your time thinking it over. We\x27re here whenever you\x27re ready. Have a great day!",
   "That\x27s totally fine! Travel is a big decision. Feel free to reach out anytime. Thanks for chatting!",
   "Completely understand! Come back whenever you\x27d like to explore options. Wishing you well!"]

/-- Destination question pool. -/
def destinationQuestions : List String :=
  ["Where would you love to travel? Paris? Bali? Tokyo? Or somewhere else entirely?",
   "What\x27s your dream destination? Beach paradise, mountain adventure, or city exploration?",
   "Tell me your ideal spot! European getaway, Asian adventure, or tropical escape?"]

/-- Traveler question pool, interpolating the destination. -/
def travelerQuestions (dest : String) : List String :=
  [dest ++ " is beautiful! Who\x27s joining you? Traveling solo, with someone, or as a group?",
   "Great pick! " ++ dest ++ " is amazing! How many people are coming along?",
   "Love it! " ++ dest ++ " is perfect! Is this a solo trip, couple\x27s getaway, or family vacation?"]

/-- Budget question pool, interpolating travelers and destination. -/
def budgetQuestions (dest trav : String) : List String :=
  ["Perfect! So " ++ trav ++ " heading to " ++ dest ++ ". What\x27s your budget style? Luxury, moderate, or budget-friendly?",
   "Awesome! " ++ trav ++ " in " ++ dest ++ " sounds fun! Thinking premium experience or keeping it economical?",
   "Nice! " ++ trav ++ " exploring " ++ dest ++ "! High-end luxury or comfortable mid-range?"]

/-- Summary-and-confirmation question pool. -/
def confirmationQuestions (dest trav bud : String) : List String :=
  ["Perfect! Let me confirm: " ++ dest ++ ", " ++ trav ++ ", " ++ bud ++ " style. Sound right? Ready to book?",
   "Great! So that\x27s " ++ dest ++ " for " ++ trav ++ " with a " ++ bud ++ " budget. All good? Should we proceed?",
   "Excellent! " ++ dest ++ ", " ++ trav ++ ", " ++ bud ++ " experience. Does that work? Shall I connect you with our expert?"]

/-- Defensive follow-up pool (the unreachable tail of `get_response`). -/
def followUps : List String :=
  ["Could you share more details?",
   "Tell me a bit more about that!",
   "Interesting! What else should I know?",
   "Got it! Anything else to add?"]

/-- The pieces of `st.session_state` the engine reads and writes. -/
structure SessionState where
  user_data : UserData
  conversation_active : Bool
  conversation_ended : Bool
  waiting_for_input : Bool
  last_question_type : Option String
deriving Repr, DecidableEq

/-- The progressive-questioning chain of `get_response`: ask for the first
missing field in priority order, else the confirmation summary, else the
generic follow-up.  Returns the updated state and the phrasing pool
`random.choice` draws from. -/
def askNext (s : SessionState) : SessionState × List String :=
  let data := s.user_data
  if strFalsy data.destination then
    ({ s with last_question_type := some "destination" }, destinationQuestions)
  else if strFalsy data.travelers then
    ({ s with last_question_type := some "travelers" },
     travelerQuestions (data.destination.getD ""))
  else if strFalsy data.budget then
    ({ s with last_question_type := some "budget" },
     budgetQuestions (data.destination.getD "") (data.travelers.getD ""))
  else if !strFalsy data.destination && !strFalsy data.travelers &&
          !strFalsy data.budget && data.confirmed.isNone then
    ({ s with last_question_type := some "confirmation" },
     confirmationQuestions (data.destination.getD "") (data.travelers.getD "")
       (data.budget.getD ""))
  else (s, followUps)

/-- Lowered input computed at the top of `get_response`
(`user_input.lower() if user_input else` the empty string). -/
def lowerInput (user_input : Option String) : String :=
  if inputFalsy user_input then "" else lowerS (user_input.getD "")

/-- Function `get_response(user_input)` of `voice2.py` / `voice3.py`: run
`extract_info`, then, when destination and travelers are set and
`confirmed` is still `None`, classify the utterance against the
affirmative keywords first and the negative keywords second; otherwise (or
when neither matches) fall through to the progressive questioning chain.
Returns the updated session state and the response pool. -/
def get_response (user_input : Option String) (s : SessionState) : SessionState × List String :=
  let data := extract_info user_input s.user_data
  let s1 := { s with user_data := data }
  let low := lowerInput user_input
  if !strFalsy data.destination && !strFalsy data.travelers && data.confirmed.isNone then
    if anyKw confirm_yes low then
      ({ s1 with
          user_data := { data with confirmed := some true },
          conversation_ended := true,
          conversation_active := false },
       yesEndings (data.destination.getD ""))
    else if anyKw confirm_no low then
      ({ s1 with
          user_data := { data with confirmed := some false },
          conversation_ended := true,
          conversation_active := false },
       noEndings)
    else askNext s1
  else askNext s1

/-- One engine step: the session state after `get_response`. -/
def stepState (u : Option String) (s : SessionState) : SessionState := (get_response u s).1

/-- One engine step: the response pool `get_response` returns. -/
def stepPool (u : Option String) (s : SessionState) : List String := (get_response u s).2

/-- A whole exchange: fold the engine step over a list of inputs. -/
def runInputs (inputs : List (Option String)) (s : SessionState) : SessionState :=
  inputs.foldl (fun st u => stepState u st) s

/-- The construction-time session state (all fields empty, inactive). -/
def initialSession : SessionState := ⟨emptyUserData, false, false, false, none⟩

/-- The session right after the START button: active and awaiting input,
trip still empty. -/
def startedSession : SessionState :=
  { initialSession with conversation_active := true, waiting_for_input := true }

/-- The STOP button handler: force the conversation inactive and ended,
stop waiting for input; the trip record is untouched. -/
def stopConversation (s : SessionState) : SessionState :=
  { s with conversation_active := false, conversation_ended := true,
           waiting_for_input := false }

/-- The numeric traveler pattern of the older `voice.py` variant
(`\b(\d+)\s*(people|person|travelers|travellers|pax|of us)\b`), which
renders every count as `"{N} people"`. -/
def voice1TravelerWords : List String :=
  ["people", "person", "travelers", "travellers", "pax", "of us"]

/-- The traveler descriptor the numeric step of `voice.py` would store. -/
def voice1TravNumMatch (low : String) : Option String :=
  (scanFor (numThenWord (voice1TravelerWords.map String.data)) none low.data).map
    (fun n => toString n ++ " people")

/-- Shared shape of the four fill steps of `extract_info`: write the matched
value into the optional field only when the field is falsy. -/
def optFill (m o : Option String) : Option String :=
  if strFalsy o then (match m with | some v => some v | none => o) else o

/-- The input sequence of the end-to-end scenario of the spec. -/
def scenarioInputs : List (Option String) :=
  [some "I want to go to Tokyo", some "just me", some "keep it cheap", some "yes"]

/-- The session reached from the started session by a stop-free exchange. -/
def engineRun (inputs : List (Option String)) : SessionState := runInputs inputs startedSession

/-- A session at the confirmation stage: destination and travelers (and
budget) set, confirmation still undecided. -/
def confirmPendingSession : SessionState :=
  ⟨⟨some "Paris", some "2 people (Couple)", some "Moderate", [], none⟩, true, false, true, none⟩

theorem optFill_truthy (m o : Option String) (h : strFalsy o = false) : optFill m o = o := by
  unfold optFill; simp [h]

theorem destStage_dest (low : String) (d : UserData) :
    (destStage low d).destination = optFill (destMatch low) d.destination := by
  unfold destStage optFill
  split
  · split <;> rfl
  · rfl

theorem destStage_frame (low : String) (d : UserData) :
    (destStage low d).travelers = d.travelers ∧ (destStage low d).budget = d.budget ∧
    (destStage low d).confirmed = d.confirmed ∧ (destStage low d).interests = d.interests := by
  unfold destStage
  split
  · split <;> exact ⟨rfl, rfl, rfl, rfl⟩
  · exact ⟨rfl, rfl, rfl, rfl⟩

theorem travNumStage_trav (low : String) (d : UserData) :
    (travNumStage low d).travelers = optFill (travNumMatch low) d.travelers := by
  unfold travNumStage optFill
  split
  · split <;> rfl
  · rfl

theorem travNumStage_frame (low : String) (d : UserData) :
    (travNumStage low d).destination = d.destination ∧ (travNumStage low d).budget = d.budget ∧
    (travNumStage low d).confirmed = d.confirmed ∧ (travNumStage low d).interests = d.interests := by
  unfold travNumStage
  split
  · split <;> exact ⟨rfl, rfl, rfl, rfl⟩
  · exact ⟨rfl, rfl, rfl, rfl⟩

theorem travCatStage_trav (low : String) (d : UserData) :
    (travCatStage low d).travelers = optFill (travCatMatch low) d.travelers := by
  unfold travCatStage optFill
  split
  · split <;> rfl
  · rfl

theorem travCatStage_frame (low : String) (d : UserData) :
    (travCatStage low d).destination = d.destination ∧ (travCatStage low d).budget = d.budget ∧
    (travCatStage low d).confirmed = d.confirmed ∧ (travCatStage low d).interests = d.interests := by
  unfold travCatStage
  split
  · split <;> exact ⟨rfl, rfl, rfl, rfl⟩
  · exact ⟨rfl, rfl, rfl, rfl⟩

theorem budgetStage_budget (low : String) (d : UserData) :
    (budgetStage low d).budget = optFill (budgetMatch low) d.budget := by
  unfold budgetStage optFill
  split
  · split <;> rfl
  · rfl

theorem budgetStage_frame (low : String) (d : UserData) :
    (budgetStage low d).destination = d.destination ∧ (budgetStage low d).travelers = d.travelers ∧
    (budgetStage low d).confirmed = d.confirmed ∧ (budgetStage low d).interests = d.interests := by
  unfold budgetStage
  split
  · split <;> exact ⟨rfl, rfl, rfl, rfl⟩
  · exact ⟨rfl, rfl, rfl, rfl⟩

theorem extract_info_dest (u : Option String) (d : UserData) :
    (extract_info u d).destination =
      if inputFalsy u then d.destination
      else optFill (destMatch (lowerS (u.getD ""))) d.destination := by
  unfold extract_info
  split
  · rfl
  · rw [(budgetStage_frame _ _).1, (travCatStage_frame _ _).1, (travNumStage_frame _ _).1,
      destStage_dest]

theorem extract_info_trav (u : Option String) (d : UserData) :
    (extract_info u d).travelers =
      if inputFalsy u then d.travelers
      else optFill (travCatMatch (lowerS (u.getD "")))
        (optFill (travNumMatch (lowerS (u.getD ""))) d.travelers) := by
  unfold extract_info
  split
  · rfl
  · rw [(budgetStage_frame _ _).2.1, travCatStage_trav, travNumStage_trav,
      (destStage_frame _ _).1]

theorem extract_info_budget (u : Option String) (d : UserData) :
    (extract_info u d).budget =
      if inputFalsy u then d.budget
      else optFill (budgetMatch (lowerS (u.getD ""))) d.budget := by
  unfold extract_info
  split
  · rfl
  · rw [budgetStage_budget, (travCatStage_frame _ _).2.1, (travNumStage_frame _ _).2.1,
      (destStage_frame _ _).2.1]

theorem extract_info_confirmed (u : Option String) (d : UserData) :
    (extract_info u d).confirmed = d.confirmed := by
  unfold extract_info
  split
  · rfl
  · rw [(budgetStage_frame _ _).2.2.1, (travCatStage_frame _ _).2.2.1,
      (travNumStage_frame _ _).2.2.1, (destStage_frame _ _).2.2.1]

theorem extract_info_interests (u : Option String) (d : UserData) :
    (extract_info u d).interests = d.interests := by
  unfold extract_info
  split
  · rfl
  · rw [(budgetStage_frame _ _).2.2.2, (travCatStage_frame _ _).2.2.2,
      (travNumStage_frame _ _).2.2.2, (destStage_frame _ _).2.2.2]

theorem destMatch_nonempty (low : String) (v : String) (h : destMatch low = some v) :
    v.data.isEmpty = false := by
  unfold destMatch at h
  rcases hf : destinations.find? (fun p => anyKw p.2 low) with _ | p
  · rw [hf] at h; simp at h
  · rw [hf] at h
    simp at h
    have hm : p ∈ destinations := List.mem_of_find?_eq_some hf
    have hall : ∀ q ∈ destinations, (titleS q.1).data.isEmpty = false := by decide
    rw [← h]
    exact hall p hm

theorem renderCount_nonempty (n : Nat) : (renderCount n).data.isEmpty = false := by
  unfold renderCount
  cases h : (n == 1 : Bool) <;> simp [h, String.append, List.isEmpty_iff]

theorem travNumMatch_nonempty (low : String) (v : String) (h : travNumMatch low = some v) :
    v.data.isEmpty = false := by
  unfold travNumMatch at h
  rcases hf : findTravelerCount low.data with _ | n
  · rw [hf] at h; simp at h
  · rw [hf] at h
    simp at h
    rw [← h]
    exact renderCount_nonempty n

theorem travCatMatch_nonempty (low : String) (v : String) (h : travCatMatch low = some v) :
    v.data.isEmpty = false := by
  unfold travCatMatch at h
  split_ifs at h <;> simp_all <;> (rw [← h]; decide)

theorem budgetMatch_nonempty (low : String) (v : String) (h : budgetMatch low = some v) :
    v.data.isEmpty = false := by
  unfold budgetMatch at h
  split_ifs at h <;> simp_all <;> (rw [← h]; decide)

theorem optFill_idem (m o : Option String)
    (hm : ∀ v, m = some v → v.data.isEmpty = false) :
    optFill m (optFill m o) = optFill m o := by
  unfold optFill
  rcases m with _ | v
  · split <;> simp_all
  · rcases ho : strFalsy o with _ | _
    · simp [ho]
    · simp [ho, strFalsy, hm v rfl]

theorem optFill_none (o : Option String) : optFill none o = o := by
  unfold optFill; split <;> rfl

theorem optFill_falsy (m o : Option String)
    (hm : ∀ v, m = some v → v.data.isEmpty = false)
    (h : strFalsy (optFill m o) = true) :
    optFill m o = o ∧ strFalsy o = true ∧ m = none := by
  rcases m with _ | v
  · refine ⟨optFill_none o, ?_, rfl⟩
    rwa [optFill_none o] at h
  · cases ho : strFalsy o
    · rw [optFill_truthy _ _ ho] at h
      simp [ho] at h
    · exfalso
      have hv : optFill (some v) o = some v := by unfold optFill; simp [ho]
      rw [hv] at h
      rw [show strFalsy (some v) = v.data.isEmpty from rfl, hm v rfl] at h
      exact Bool.false_ne_true h

theorem optFill2_idem (m1 m2 o : Option String)
    (h1 : ∀ v, m1 = some v → v.data.isEmpty = false)
    (h2 : ∀ v, m2 = some v → v.data.isEmpty = false) :
    optFill m2 (optFill m1 (optFill m2 (optFill m1 o))) = optFill m2 (optFill m1 o) := by
  cases hs : strFalsy (optFill m2 (optFill m1 o))
  · rw [optFill_truthy m1 _ hs, optFill_truthy m2 _ hs]
  · obtain ⟨e2, hf1, hm2⟩ := optFill_falsy m2 _ h2 hs
    obtain ⟨e1, hfo, hm1⟩ := optFill_falsy m1 o h1 hf1
    simp only [hm1, hm2, optFill_none]

theorem userData_fields_eq (a b : UserData)
    (h1 : a.destination = b.destination) (h2 : a.travelers = b.travelers)
    (h3 : a.budget = b.budget) (h4 : a.interests = b.interests)
    (h5 : a.confirmed = b.confirmed) : a = b := by
  cases a; cases b; simp_all

theorem extract_info_idem (u : Option String) (d : UserData) :
    extract_info u (extract_info u d) = extract_info u d := by
  apply userData_fields_eq
  · rw [extract_info_dest u (extract_info u d), extract_info_dest u d]
    cases hu : inputFalsy u
    · simp only [hu, Bool.false_eq_true, if_false]
      exact optFill_idem _ _ (fun v hv => destMatch_nonempty _ v hv)
    · simp [hu]
  · rw [extract_info_trav u (extract_info u d), extract_info_trav u d]
    cases hu : inputFalsy u
    · simp only [hu, Bool.false_eq_true, if_false]
      exact optFill2_idem _ _ _ (fun v hv => travNumMatch_nonempty _ v hv)
        (fun v hv => travCatMatch_nonempty _ v hv)
    · simp [hu]
  · rw [extract_info_budget u (extract_info u d), extract_info_budget u d]
    cases hu : inputFalsy u
    · simp only [hu, Bool.false_eq_true, if_false]
      exact optFill_idem _ _ (fun v hv => budgetMatch_nonempty _ v hv)
    · simp [hu]
  · rw [extract_info_interests, extract_info_interests]
  · rw [extract_info_confirmed, extract_info_confirmed]

theorem askNext_frame (s : SessionState) :
    (askNext s).1.user_data = s.user_data ∧
    (askNext s).1.conversation_ended = s.conversation_ended ∧
    (askNext s).1.conversation_active = s.conversation_active ∧
    (askNext s).1.waiting_for_input = s.waiting_for_input := by
  unfold askNext
  dsimp only
  split_ifs <;> exact ⟨rfl, rfl, rfl, rfl⟩

theorem stepState_cases (u : Option String) (s : SessionState) :
    ((stepState u s).user_data = extract_info u s.user_data ∧
     (stepState u s).conversation_ended = s.conversation_ended ∧
     (stepState u s).conversation_active = s.conversation_active) ∨
    (s.user_data.confirmed = none ∧
     (∃ b, (stepState u s).user_data =
       { extract_info u s.user_data with confirmed := some b }) ∧
     (stepState u s).conversation_ended = true ∧
     (stepState u s).conversation_active = false) := by
  unfold stepState get_response
  dsimp only
  split_ifs with h1 h2 h3
  · right
    refine ⟨?_, ⟨true, rfl⟩, rfl, rfl⟩
    have hn := ((Bool.and_eq_true _ _).mp h1).2
    rw [extract_info_confirmed] at hn
    exact Option.eq_none_of_isNone hn
  · right
    refine ⟨?_, ⟨false, rfl⟩, rfl, rfl⟩
    have hn := ((Bool.and_eq_true _ _).mp h1).2
    rw [extract_info_confirmed] at hn
    exact Option.eq_none_of_isNone hn
  · exact Or.inl ⟨(askNext_frame _).1, (askNext_frame _).2.1, (askNext_frame _).2.2.1⟩
  · exact Or.inl ⟨(askNext_frame _).1, (askNext_frame _).2.1, (askNext_frame _).2.2.1⟩

theorem stepState_fields (u : Option String) (s : SessionState) :
    (stepState u s).user_data.destination = (extract_info u s.user_data).destination ∧
    (stepState u s).user_data.travelers = (extract_info u s.user_data).travelers ∧
    (stepState u s).user_data.budget = (extract_info u s.user_data).budget ∧
    (stepState u s).user_data.interests = (extract_info u s.user_data).interests := by
  rcases stepState_cases u s with ⟨h, -, -⟩ | ⟨-, ⟨b, h⟩, -, -⟩ <;>
    rw [h] <;> exact ⟨rfl, rfl, rfl, rfl⟩

theorem stepState_stable (u : Option String) (s : SessionState)
    (h : s.user_data.confirmed.isSome = true) :
    (stepState u s).user_data.confirmed = s.user_data.confirmed ∧
    (stepState u s).conversation_ended = s.conversation_ended ∧
    (stepState u s).conversation_active = s.conversation_active := by
  rcases stepState_cases u s with ⟨hud, he, ha⟩ | ⟨hc, -, -, -⟩
  · exact ⟨by rw [hud, extract_info_confirmed], he, ha⟩
  · rw [hc] at h; simp at h

theorem stepState_invariant (u : Option String) (s : SessionState)
    (h : s.conversation_ended = s.user_data.confirmed.isSome) :
    (stepState u s).conversation_ended = (stepState u s).user_data.confirmed.isSome := by
  rcases stepState_cases u s with ⟨hud, he, ha⟩ | ⟨hc, ⟨b, hud⟩, he, ha⟩
  · rw [he, hud, extract_info_confirmed, h]
  · rw [he, hud]
    rfl

theorem runInputs_invariant (inputs : List (Option String)) :
    ∀ s : SessionState, s.conversation_ended = s.user_data.confirmed.isSome →
    (runInputs inputs s).conversation_ended = (runInputs inputs s).user_data.confirmed.isSome := by
  induction inputs with
  | nil => intro s h; exact h
  | cons u rest ih => intro s h; exact ih _ (stepState_invariant u s h)

theorem stepState_assign (u : Option String) (s : SessionState)
    (hc : s.user_data.confirmed = none)
    (h2 : (stepState u s).user_data.confirmed.isSome = true) :
    (stepState u s).conversation_ended = true ∧
    (stepState u s).conversation_active = false := by
  rcases stepState_cases u s with ⟨hud, he, ha⟩ | ⟨-, -, he, ha⟩
  · exfalso; rw [hud, extract_info_confirmed, hc] at h2; simp at h2
  · exact ⟨he, ha⟩

theorem stepState_no_assign (u : Option String) (s : SessionState)
    (hc2 : (stepState u s).user_data.confirmed = none) :
    (stepState u s).conversation_ended = s.conversation_ended ∧
    (stepState u s).conversation_active = s.conversation_active := by
  rcases stepState_cases u s with ⟨hud, he, ha⟩ | ⟨-, ⟨b, hud⟩, he, ha⟩
  · exact ⟨he, ha⟩
  · exfalso; rw [hud] at hc2; simp at hc2

theorem stepState_confirm_yes (u : Option String) (s : SessionState)
    (hd : strFalsy (extract_info u s.user_data).destination = false)
    (ht : strFalsy (extract_info u s.user_data).travelers = false)
    (hc : s.user_data.confirmed = none)
    (hy : anyKw confirm_yes (lowerInput u) = true) :
    (stepState u s).user_data.confirmed = some true ∧
    (stepState u s).conversation_ended = true ∧
    (stepState u s).conversation_active = false ∧
    stepPool u s = yesEndings ((extract_info u s.user_data).destination.getD "") := by
  have hg : (!strFalsy (extract_info u s.user_data).destination &&
      !strFalsy (extract_info u s.user_data).travelers &&
      (extract_info u s.user_data).confirmed.isNone) = true := by
    rw [extract_info_confirmed, hc]; simp [hd, ht]
  unfold stepState stepPool get_response
  dsimp only
  rw [if_pos hg, if_pos hy]
  exact ⟨rfl, rfl, rfl, rfl⟩

theorem stepState_falsy (u : Option String) (s : SessionState) (hu : inputFalsy u = true) :
    (stepState u s).user_data = s.user_data ∧ stepPool u s = (askNext s).2 := by
  have hdata : extract_info u s.user_data = s.user_data := by
    unfold extract_info; rw [if_pos hu]
  have hlow : lowerInput u = "" := by
    unfold lowerInput; rw [if_pos hu]
  have hy : anyKw confirm_yes "" = false := by decide
  have hn : anyKw confirm_no "" = false := by decide
  unfold stepState stepPool get_response
  dsimp only
  rw [hdata, hlow]
  split_ifs with h1 h2 h3
  · rw [hy] at h2; exact absurd h2 (by simp)
  · rw [hn] at h3; exact absurd h3 (by simp)
  · exact ⟨(askNext_frame _).1, rfl⟩
  · exact ⟨(askNext_frame _).1, rfl⟩

theorem askNext_pool_dest (s : SessionState)
    (h : strFalsy s.user_data.destination = true) :
    (askNext s).2 = destinationQuestions := by
  unfold askNext; dsimp only; rw [if_pos h]

theorem askNext_pool_trav (s : SessionState)
    (hd : strFalsy s.user_data.destination = false)
    (ht : strFalsy s.user_data.travelers = true) :
    (askNext s).2 = travelerQuestions (s.user_data.destination.getD "") := by
  unfold askNext; dsimp only
  rw [if_neg (by simp [hd]), if_pos ht]

theorem askNext_pool_budget (s : SessionState)
    (hd : strFalsy s.user_data.destination = false)
    (ht : strFalsy s.user_data.travelers = false)
    (hb : strFalsy s.user_data.budget = true) :
    (askNext s).2 = budgetQuestions (s.user_data.destination.getD "")
      (s.user_data.travelers.getD "") := by
  unfold askNext; dsimp only
  rw [if_neg (by simp [hd]), if_neg (by simp [ht]), if_pos hb]

theorem askNext_pool_confirm (s : SessionState)
    (hd : strFalsy s.user_data.destination = false)
    (ht : strFalsy s.user_data.travelers = false)
    (hb : strFalsy s.user_data.budget = false)
    (hc : s.user_data.confirmed = none) :
    (askNext s).2 = confirmationQuestions (s.user_data.destination.getD "")
      (s.user_data.travelers.getD "") (s.user_data.budget.getD "") := by
  unfold askNext; dsimp only
  rw [if_neg (by simp [hd]), if_neg (by simp [ht]), if_neg (by simp [hb]),
    if_pos (by simp [hd, ht, hb, hc])]

/-- C1 (first-write-wins): once a field of the trip record holds a value
(destination, travelers or budget non-falsy; confirmed decided), neither
`extract_info` nor a full engine step changes that field, for every input.
Extraction never touches `confirmed` at all. -/
theorem C1_first_write_wins (u : Option String) (d : UserData) (s : SessionState) :
    (strFalsy d.destination = false → (extract_info u d).destination = d.destination) ∧
    (strFalsy d.travelers = false → (extract_info u d).travelers = d.travelers) ∧
    (strFalsy d.budget = false → (extract_info u d).budget = d.budget) ∧
    ((extract_info u d).confirmed = d.confirmed) ∧
    (strFalsy s.user_data.destination = false →
      (stepState u s).user_data.destination = s.user_data.destination) ∧
    (strFalsy s.user_data.travelers = false →
      (stepState u s).user_data.travelers = s.user_data.travelers) ∧
    (strFalsy s.user_data.budget = false →
      (stepState u s).user_data.budget = s.user_data.budget) ∧
    (s.user_data.confirmed.isSome = true →
      (stepState u s).user_data.confirmed = s.user_data.confirmed) := by
  refine ⟨?_, ?_, ?_, extract_info_confirmed u d, ?_, ?_, ?_,
    fun h => (stepState_stable u s h).1⟩
  · intro h
    rw [extract_info_dest]
    split
    · rfl
    · exact optFill_truthy _ _ h
  · intro h
    rw [extract_info_trav]
    split
    · rfl
    · rw [optFill_truthy _ _ h]
      exact optFill_truthy _ _ h
  · intro h
    rw [extract_info_budget]
    split
    · rfl
    · exact optFill_truthy _ _ h
  · intro h
    rw [(stepState_fields u s).1, extract_info_dest]
    split
    · rfl
    · exact optFill_truthy _ _ h
  · intro h
    rw [(stepState_fields u s).2.1, extract_info_trav]
    split
    · rfl
    · rw [optFill_truthy _ _ h]
      exact optFill_truthy _ _ h
  · intro h
    rw [(stepState_fields u s).2.2.1, extract_info_budget]
    split
    · rfl
    · exact optFill_truthy _ _ h

/-- C2 (idempotent extraction): running `extract_info` a second time with the
same utterance on the already-updated trip record changes nothing, for every
utterance and every starting record. -/
theorem C2_extract_idempotent (u : Option String) (d : UserData) :
    extract_info u (extract_info u d) = extract_info u d :=
  extract_info_idem u d

/-- C3 (end-to-end scenario): from the freshly started session, the input
sequence of going to Tokyo, travelling alone, keeping it cheap, then agreeing
ends the session with the trip confirmed, destination Tokyo, travelers
recorded as solo, and a budget-friendly budget. -/
theorem C3_scenario :
    (runInputs scenarioInputs startedSession).user_data.confirmed = some true ∧
    (runInputs scenarioInputs startedSession).user_data.destination = some "Tokyo" ∧
    (runInputs scenarioInputs startedSession).user_data.travelers = some "1 person (Solo)" ∧
    (runInputs scenarioInputs startedSession).user_data.budget = some "Budget-friendly" ∧
    (runInputs scenarioInputs startedSession).conversation_ended = true := by
  decide

/-- C4 (total on empty input): a step on a falsy input (`None` or the empty
string) returns the trip record unchanged and re-asks the question for the
first missing field in priority order (the engine is a total Lean function,
so no exception is possible). -/
theorem C4_empty_input_safe (s : SessionState) (u : Option String)
    (hu : inputFalsy u = true) :
    ((stepState u s).user_data = s.user_data) ∧
    (strFalsy s.user_data.destination = true → stepPool u s = destinationQuestions) ∧
    (strFalsy s.user_data.destination = false → strFalsy s.user_data.travelers = true →
      stepPool u s = travelerQuestions (s.user_data.destination.getD "")) ∧
    (strFalsy s.user_data.destination = false → strFalsy s.user_data.travelers = false →
      strFalsy s.user_data.budget = true →
      stepPool u s = budgetQuestions (s.user_data.destination.getD "")
        (s.user_data.travelers.getD "")) ∧
    (strFalsy s.user_data.destination = false → strFalsy s.user_data.travelers = false →
      strFalsy s.user_data.budget = false → s.user_data.confirmed = none →
      stepPool u s = confirmationQuestions (s.user_data.destination.getD "")
        (s.user_data.travelers.getD "") (s.user_data.budget.getD "")) := by
  obtain ⟨h1, h2⟩ := stepState_falsy u s hu
  refine ⟨h1, ?_, ?_, ?_, ?_⟩
  · intro hd
    rw [h2, askNext_pool_dest s hd]
  · intro hd ht
    rw [h2, askNext_pool_trav s hd ht]
  · intro hd ht hb
    rw [h2, askNext_pool_budget s hd ht hb]
  · intro hd ht hb hc
    rw [h2, askNext_pool_confirm s hd ht hb hc]

theorem C4_witness :
    (stepState none startedSession).user_data = startedSession.user_data ∧
    stepPool none startedSession = destinationQuestions :=
  ⟨(C4_empty_input_safe startedSession none rfl).1,
   (C4_empty_input_safe startedSession none rfl).2.1 rfl⟩

/-- C5 (budget tie-break): when the budget field is unset, an utterance with a
luxury keyword always yields Luxury, regardless of which other budget keyword
sets also match; moderate is checked second and budget-friendly last. -/
theorem C5_budget_tiebreak (u : String) (d : UserData)
    (hu : inputFalsy (some u) = false)
    (hb : strFalsy d.budget = true) :
    (anyKw luxuryWords (lowerS u) = true →
      (extract_info (some u) d).budget = some "Luxury") ∧
    (anyKw luxuryWords (lowerS u) = false → anyKw moderateWords (lowerS u) = true →
      (extract_info (some u) d).budget = some "Moderate") ∧
    (anyKw luxuryWords (lowerS u) = false → anyKw moderateWords (lowerS u) = false →
      anyKw budgetWords (lowerS u) = true →
      (extract_info (some u) d).budget = some "Budget-friendly") := by
  have hB : (extract_info (some u) d).budget = optFill (budgetMatch (lowerS u)) d.budget := by
    rw [extract_info_budget, if_neg (by simp [hu]), Option.getD_some]
  refine ⟨?_, ?_, ?_⟩
  · intro hl
    have hm : budgetMatch (lowerS u) = some "Luxury" := by
      unfold budgetMatch; rw [if_pos hl]
    rw [hB]; unfold optFill; rw [if_pos hb, hm]
  · intro hl hmod
    have hm : budgetMatch (lowerS u) = some "Moderate" := by
      unfold budgetMatch; rw [if_neg (by simp [hl]), if_pos hmod]
    rw [hB]; unfold optFill; rw [if_pos hb, hm]
  · intro hl hmod hbud
    have hm : budgetMatch (lowerS u) = some "Budget-friendly" := by
      unfold budgetMatch; rw [if_neg (by simp [hl]), if_neg (by simp [hmod]), if_pos hbud]
    rw [hB]; unfold optFill; rw [if_pos hb, hm]

theorem C5_witness :
    (extract_info (some "affordable luxury trip") emptyUserData).budget = some "Luxury" :=
  (C5_budget_tiebreak "affordable luxury trip" emptyUserData (by decide) (by decide)).1
    (by decide)

/-- C6 (confirmation tie-break): with destination and travelers set and
confirmation undecided, an utterance containing both an affirmative and a
negative keyword is classified as affirmative: the step sets confirmed to
true and ends the session. -/
theorem C6_confirmation_tiebreak (u : String) (s : SessionState)
    (hu : inputFalsy (some u) = false)
    (hd : strFalsy s.user_data.destination = false)
    (ht : strFalsy s.user_data.travelers = false)
    (hc : s.user_data.confirmed = none)
    (hyes : anyKw confirm_yes (lowerS u) = true)
    (hno : anyKw confirm_no (lowerS u) = true) :
    (stepState (some u) s).user_data.confirmed = some true ∧
    (stepState (some u) s).conversation_ended = true ∧
    (stepState (some u) s).conversation_active = false := by
  have hd2 : strFalsy (extract_info (some u) s.user_data).destination = false := by
    rw [extract_info_dest, if_neg (by simp [hu]), optFill_truthy _ _ hd]
    exact hd
  have ht2 : strFalsy (extract_info (some u) s.user_data).travelers = false := by
    rw [extract_info_trav, if_neg (by simp [hu]), optFill_truthy _ _ ht,
      optFill_truthy _ _ ht]
    exact ht
  have hylow : anyKw confirm_yes (lowerInput (some u)) = true := by
    unfold lowerInput
    rw [if_neg (by simp [hu])]
    exact hyes
  exact ⟨(stepState_confirm_yes (some u) s hd2 ht2 hc hylow).1,
         (stepState_confirm_yes (some u) s hd2 ht2 hc hylow).2.1,
         (stepState_confirm_yes (some u) s hd2 ht2 hc hylow).2.2.1⟩

theorem C6_witness :
    (stepState (some "yes or no") confirmPendingSession).user_data.confirmed = some true ∧
    (stepState (some "yes or no") confirmPendingSession).conversation_ended = true ∧
    (stepState (some "yes or no") confirmPendingSession).conversation_active = false :=
  C6_confirmation_tiebreak "yes or no" confirmPendingSession (by decide) (by decide)
    (by decide) rfl (by decide) (by decide)

/-- C7 (singular traveler rendering): when the travelers field is unset and
the first matching numeric traveler pattern captures the number n, extraction
stores the count followed by the word person when n is one and people
otherwise. -/
theorem C7_traveler_rendering (u : String) (d : UserData) (n : Nat)
    (hu : inputFalsy (some u) = false)
    (ht : strFalsy d.travelers = true)
    (hn : findTravelerCount (lowerS u).data = some n) :
    (extract_info (some u) d).travelers =
      some (toString n ++ " " ++ (if n == 1 then "person" else "people")) := by
  have hm : travNumMatch (lowerS u) = some (renderCount n) := by
    unfold travNumMatch; rw [hn]; rfl
  have hinner : optFill (travNumMatch (lowerS u)) d.travelers = some (renderCount n) := by
    unfold optFill; rw [if_pos ht, hm]
  rw [extract_info_trav, if_neg (by simp [hu]), Option.getD_some, hinner,
    optFill_truthy _ _ (by
      rw [show strFalsy (some (renderCount n)) = (renderCount n).data.isEmpty from rfl]
      exact renderCount_nonempty n)]
  rfl

theorem C7_witness :
    (extract_info (some "1 person") emptyUserData).travelers = some "1 person" := by
  rw [C7_traveler_rendering "1 person" emptyUserData 1 (by decide) (by decide) (by decide)]
  decide

/-- C8 (terminal iff decided): along any stop-free run from the started
session, the ended flag equals decidedness of `confirmed`; once decided, a
step never changes confirmed, ended or active again; the step that assigns
confirmed is exactly the one that sets ended true and active false, and a
step that leaves confirmed undecided leaves ended and active unchanged. -/
theorem C8_terminal_iff_decided (inputs : List (Option String)) (u : Option String) :
    ((engineRun inputs).conversation_ended = (engineRun inputs).user_data.confirmed.isSome) ∧
    ((engineRun inputs).user_data.confirmed.isSome = true →
      (stepState u (engineRun inputs)).user_data.confirmed =
        (engineRun inputs).user_data.confirmed ∧
      (stepState u (engineRun inputs)).conversation_ended =
        (engineRun inputs).conversation_ended ∧
      (stepState u (engineRun inputs)).conversation_active =
        (engineRun inputs).conversation_active) ∧
    ((engineRun inputs).user_data.confirmed = none →
      (stepState u (engineRun inputs)).user_data.confirmed.isSome = true →
      (stepState u (engineRun inputs)).conversation_ended = true ∧
      (stepState u (engineRun inputs)).conversation_active = false) ∧
    ((engineRun inputs).user_data.confirmed = none →
      (stepState u (engineRun inputs)).user_data.confirmed = none →
      (stepState u (engineRun inputs)).conversation_ended =
        (engineRun inputs).conversation_ended ∧
      (stepState u (engineRun inputs)).conversation_active =
        (engineRun inputs).conversation_active) :=
  ⟨runInputs_invariant inputs startedSession rfl,
   fun h => stepState_stable u _ h,
   fun hc h2 => stepState_assign u _ hc h2,
   fun _ hc2 => stepState_no_assign u _ hc2⟩

/-- C9 (stop is frame-preserving): the STOP handler forces ended true and
active false in every state while leaving the whole trip record, in
particular `confirmed`, untouched. -/
theorem C9_stop_frame (s : SessionState) :
    (stopConversation s).conversation_ended = true ∧
    (stopConversation s).conversation_active = false ∧
    (stopConversation s).user_data = s.user_data ∧
    (stopConversation s).user_data.confirmed = s.user_data.confirmed :=
  ⟨rfl, rfl, rfl, rfl⟩

/-- C10 (substring keyword matching): keyword tests are raw substring
containment, so at the confirmation stage the utterance of not knowing is
classified as a negative confirmation (the keyword no occurs inside the word
know): the step sets confirmed to false, ends the session and returns the
decline pool. -/
theorem C10_substring_negative :
    strIn "no" (lowerS "I don\x27t know") = true ∧
    (stepState (some "I don\x27t know") confirmPendingSession).user_data.confirmed =
      some false ∧
    (stepState (some "I don\x27t know") confirmPendingSession).conversation_ended = true ∧
    stepPool (some "I don\x27t know") confirmPendingSession = noEndings := by
  decide

/-- Divergent legacy behavior, for the record: the numeric traveler step of
`voice.py` (unlike the `voice2.py` / `voice3.py` core the spec selects)
renders every captured count with the word people, including a count of
one. -/
theorem voice1_numeric_renders_people :
    voice1TravNumMatch "1 person" = some "1 people" := by
  decide
